import Mathlib

/-!
Shallow embedding of the client-side cart/catalog state layer of the
e-commerce frontend (src/frontend/src/context/CartContext.js,
src/frontend/src/context/ProductContext.js, src/frontend/src/utils/storage.js,
and the ProductDetail component's handleAddToCart).

JavaScript numbers that the code only adds, multiplies and compares are
modelled as `Int`; object spreads become record updates; the reducer's
switch becomes a match on an action type.
-/

namespace ECommerce

/-- A cart item as built by the frontend: a product object spread together
with `quantity`, and (when added from the product-detail page) the selected
variant fields and a derived `cartId` string. -/
structure CartItem where
  id : Int
  name : String
  price : Int
  quantity : Int
  selectedSize : String
  selectedColor : String
  cartId : String
deriving DecidableEq, Repr

/-- The reducer state of CartContext: `{ items, loading, error }`. -/
structure CartState where
  items : List CartItem
  loading : Bool
  error : Option String
deriving DecidableEq, Repr

/-- The action types dispatched to `cartReducer` in CartContext.js. -/
inductive CartAction where
  | setCart (payload : List CartItem)
  | addItem (payload : CartItem)
  | updateItem (id : Int) (quantity : Int)
  | removeItem (id : Int)
  | clearCart
  | setLoading (b : Bool)
  | setError (e : Option String)
deriving DecidableEq, Repr

/-- `cartReducer` from CartContext.js lines 7-64.  `ADD_ITEM` first looks for
an existing item with the payload's `id` (`state.items.find`); if found it
maps over the items incrementing the matching item's quantity, otherwise it
appends the payload.  `UPDATE_ITEM` maps a quantity replacement over matching
items; `REMOVE_ITEM` filters the id out; `CLEAR_CART` empties the list. -/
def cartReducer (state : CartState) (action : CartAction) : CartState :=
  match action with
  | .setCart payload => { state with items := payload, loading := false }
  | .addItem payload =>
      match state.items.find? (fun item => item.id == payload.id) with
      | some _ =>
          { state with
              items := state.items.map (fun item =>
                if item.id == payload.id then
                  { item with quantity := item.quantity + payload.quantity }
                else item) }
      | none => { state with items := state.items ++ [payload] }
  | .updateItem id quantity =>
      { state with
          items := state.items.map (fun item =>
            if item.id == id then { item with quantity := quantity } else item) }
  | .removeItem id =>
      { state with items := state.items.filter (fun item => !(item.id == id)) }
  | .clearCart => { state with items := [] }
  | .setLoading b => { state with loading := b }
  | .setError e => { state with error := e, loading := false }

/-- `initialState` of CartContext.js lines 66-70. -/
def initialCartState : CartState := { items := [], loading := false, error := none }

/-- `addToCart(product, quantity)` from CartContext.js lines 88-99: dispatches
`SET_LOADING true`, builds `cartItem = { ...product, quantity }` and
dispatches `ADD_ITEM`.  No validation of `quantity` is performed and no error
is raised on the synchronous path. -/
def addToCart (state : CartState) (product : CartItem) (quantity : Int) : CartState :=
  let s := cartReducer state (.setLoading true)
  cartReducer s (.addItem { product with quantity := quantity })

/-- `removeFromCart(productId)` from CartContext.js lines 119-128. -/
def removeFromCart (state : CartState) (productId : Int) : CartState :=
  cartReducer state (.removeItem productId)

/-- `updateQuantity(productId, quantity)` from CartContext.js lines 101-115:
`quantity <= 0` delegates to `removeFromCart`, otherwise dispatches
`UPDATE_ITEM`. -/
def updateQuantity (state : CartState) (productId : Int) (quantity : Int) : CartState :=
  if quantity ≤ 0 then removeFromCart state productId
  else cartReducer state (.updateItem productId quantity)

/-- `clearCart()` from CartContext.js lines 130-139. -/
def clearCart (state : CartState) : CartState :=
  cartReducer state .clearCart

/-- `getCartTotal()` from CartContext.js lines 141-143: a reduce over the
item list, never a stored field. -/
def getCartTotal (state : CartState) : Int :=
  state.items.foldl (fun total item => total + item.price * item.quantity) 0

/-- `getCartItemCount()` from CartContext.js lines 145-147: a reduce over the
item list, never a stored field. -/
def getCartItemCount (state : CartState) : Int :=
  state.items.foldl (fun count item => count + item.quantity) 0

/-- `handleAddToCart` from the ProductDetail component: builds a cart item
carrying the selected variant and a derived
`cartId = productId-selectedSize-selectedColor`, then calls `addToCart`
with only one argument, so `quantity` takes its default value 1. -/
def handleAddToCart (state : CartState) (product : CartItem)
    (selectedSize : String) (selectedColor : String) (uiQuantity : Int) : CartState :=
  let cartItem : CartItem :=
    { product with
        quantity := uiQuantity,
        selectedSize := selectedSize,
        selectedColor := selectedColor,
        cartId := toString product.id ++ "-" ++ selectedSize ++ "-" ++ selectedColor }
  addToCart state cartItem 1

/-- One UI-level cart mutation, as exposed by the provider. -/
inductive CartOp where
  | add (product : CartItem) (quantity : Int)
  | update (productId : Int) (quantity : Int)
  | remove (productId : Int)
  | clear
deriving DecidableEq, Repr

/-- Apply one provider-level mutation to the state. -/
def applyOp (state : CartState) (op : CartOp) : CartState :=
  match op with
  | .add p q => addToCart state p q
  | .update productId q => updateQuantity state productId q
  | .remove productId => removeFromCart state productId
  | .clear => clearCart state

/-- Run a sequence of cart mutations from the initial empty cart. -/
def runOps (ops : List CartOp) : CartState :=
  ops.foldl applyOp initialCartState

/-!
Persistence layer (src/frontend/src/utils/storage.js, cart-specific methods).
`saveCart` writes `JSON.stringify(cartItems)` under the key `cart`;
`getCart` reads the raw string and returns `JSON.parse` of it, returning `[]`
when nothing is stored or when parsing throws (the catch branch).

The JSON boundary is modelled at the parsed-value level: `Json` is the value
tree `JSON.parse` yields, `encodeItem`/`encodeCart` are the value mapping of
`JSON.stringify` on a cart-item array (stringify followed by parse is the
structural identity on such values), and the stored `cart` slot is either
absent, a string that fails to parse (`corrupt`), or a parsed value.
-/

/-- A JSON value, restricted to the forms the cart payload uses. -/
inductive Json where
  | num (n : Int)
  | str (s : String)
  | arr (elems : List Json)
  | obj (fields : List (String × Json))

/-- The state of the `cart` key in localStorage, at parse level. -/
inductive CartSlot where
  | absent
  | corrupt
  | parsed (j : Json)

/-- The JSON value `JSON.stringify` serialises one cart item to. -/
def encodeItem (i : CartItem) : Json :=
  .obj [("id", .num i.id), ("name", .str i.name), ("price", .num i.price),
        ("quantity", .num i.quantity), ("selectedSize", .str i.selectedSize),
        ("selectedColor", .str i.selectedColor), ("cartId", .str i.cartId)]

/-- The JSON value `JSON.stringify` serialises a cart-item array to. -/
def encodeCart (items : List CartItem) : Json :=
  .arr (items.map encodeItem)

/-- `storage.saveCart(cartItems)`: overwrite the `cart` slot with the
serialised item array (the successful `setItem` path; the catch branch
leaves the slot unchanged and merely returns `false`). -/
def saveCart (items : List CartItem) : CartSlot :=
  .parsed (encodeCart items)

/-- `storage.getCart()`: `[]` when nothing is stored, `[]` when parsing
throws, otherwise the parsed value as-is (no validation). -/
def getCart : CartSlot → Json
  | .absent => .arr []
  | .corrupt => .arr []
  | .parsed j => j

/-- Read an `Int` back from a JSON number. -/
def asNum : Json → Option Int
  | .num n => some n
  | _ => none

/-- Read a `String` back from a JSON string. -/
def asStr : Json → Option String
  | .str s => some s
  | _ => none

/-- Interpret one parsed JSON object as a cart item (the inverse reading of
`encodeItem`). -/
def decodeItem : Json → Option CartItem
  | .obj fields => do
      let id ← (fields.lookup "id").bind asNum
      let name ← (fields.lookup "name").bind asStr
      let price ← (fields.lookup "price").bind asNum
      let quantity ← (fields.lookup "quantity").bind asNum
      let selectedSize ← (fields.lookup "selectedSize").bind asStr
      let selectedColor ← (fields.lookup "selectedColor").bind asStr
      let cartId ← (fields.lookup "cartId").bind asStr
      some { id := id, name := name, price := price, quantity := quantity,
             selectedSize := selectedSize, selectedColor := selectedColor,
             cartId := cartId }
  | _ => none

/-- Interpret a list of parsed JSON values as cart items, failing if any
element fails. -/
def decodeItems : List Json → Option (List CartItem)
  | [] => some []
  | j :: rest => do
      let i ← decodeItem j
      let l ← decodeItems rest
      some (i :: l)

/-- Interpret a parsed JSON value as a cart-item list. -/
def decodeCart : Json → Option (List CartItem)
  | .arr elems => decodeItems elems
  | _ => none

/-!
Catalog sorting (src/frontend/src/context/ProductContext.js,
`getFilteredProducts` lines 189-205).  The comparator reads `a[sortBy]` and
`b[sortBy]`, lowercases string values, and returns
`aValue > bValue ? 1 : -1` for ascending order and
`aValue < bValue ? 1 : -1` for descending order — it never returns 0.
-/

/-- A catalog product record (the fields the sort step reads). -/
structure Product where
  id : Int
  name : String
  description : String
  price : Int
  categoryId : Int
deriving DecidableEq, Repr

/-- The sort keys the UI requests (`filters.sortBy`). -/
inductive SortKey where
  | name
  | price
deriving DecidableEq, Repr

/-- The sort direction (`filters.sortOrder`). -/
inductive SortOrder where
  | asc
  | desc
deriving DecidableEq, Repr

/-- A dynamically typed JS value as the comparator sees it. -/
inductive JsValue where
  | str (s : String)
  | num (n : Int)
deriving DecidableEq, Repr

/-- JS `toLowerCase()` on a string, mapped over its characters. -/
def jsToLower (s : String) : String :=
  ⟨s.data.map Char.toLower⟩

/-- Lexicographic order on character lists by code unit, as JS `<` compares
strings. -/
def charListLt : List Char → List Char → Bool
  | [], [] => false
  | [], _ :: _ => true
  | _ :: _, [] => false
  | a :: as, b :: bs =>
      if a.toNat < b.toNat then true
      else if b.toNat < a.toNat then false
      else charListLt as bs

/-- JS `<` on strings (lexicographic by code unit). -/
def jsStrLt (a b : String) : Bool :=
  charListLt a.data b.data

/-- `a[sortBy]`, after the comparator's lowercasing of string values. -/
def sortKeyValue (p : Product) : SortKey → JsValue
  | .name => .str (jsToLower p.name)
  | .price => .num p.price

/-- JS `>` on the values the comparator compares. -/
def jsGt : JsValue → JsValue → Bool
  | .num a, .num b => decide (b < a)
  | .str a, .str b => jsStrLt b a
  | _, _ => false

/-- JS `<` on the values the comparator compares. -/
def jsLt : JsValue → JsValue → Bool
  | .num a, .num b => decide (a < b)
  | .str a, .str b => jsStrLt a b
  | _, _ => false

/-- The comparator passed to `filtered.sort` in `getFilteredProducts`. -/
def compareProducts (sortBy : SortKey) (sortOrder : SortOrder) (a b : Product) : Int :=
  let aValue := sortKeyValue a sortBy
  let bValue := sortKeyValue b sortBy
  match sortOrder with
  | .asc => if jsGt aValue bValue then 1 else -1
  | .desc => if jsLt aValue bValue then 1 else -1

/-! Concrete values used to evaluate the model on specific inputs. -/

/-- A concrete product as the UI passes it to the cart. -/
def demoProduct : CartItem :=
  { id := 1, name := "Shirt", price := 10, quantity := 1,
    selectedSize := "", selectedColor := "", cartId := "" }

/-- A concrete cart state holding one line for product 1. -/
def demoState : CartState :=
  { items := [demoProduct], loading := false, error := none }

/-- A concrete catalog product with id 2. -/
def prodA : Product :=
  { id := 2, name := "alpha", description := "", price := 10, categoryId := 1 }

/-- A concrete catalog product with id 1 and the same name and price as
`prodA`. -/
def prodB : Product :=
  { id := 1, name := "alpha", description := "", price := 10, categoryId := 1 }

/-! Helper lemmas shared by the claim theorems. -/

/-- The item-count reduce equals the sum of quantities, for any accumulator. -/
theorem foldl_count_eq_sum (l : List CartItem) :
    ∀ acc : Int,
      l.foldl (fun count item => count + item.quantity) acc
        = acc + (l.map (fun i => i.quantity)).sum := by
  induction l with
  | nil => intro acc; simp
  | cons x xs ih =>
      intro acc
      simp only [List.foldl_cons, List.map_cons, List.sum_cons]
      rw [ih]
      ring

/-- The price reduce equals the sum of price×quantity, for any accumulator. -/
theorem foldl_total_eq_sum (l : List CartItem) :
    ∀ acc : Int,
      l.foldl (fun total item => total + item.price * item.quantity) acc
        = acc + (l.map (fun i => i.price * i.quantity)).sum := by
  induction l with
  | nil => intro acc; simp
  | cons x xs ih =>
      intro acc
      simp only [List.foldl_cons, List.map_cons, List.sum_cons]
      rw [ih]
      ring

/-- `getCartItemCount` is the sum of the quantities of the current items. -/
theorem getCartItemCount_eq_sum (s : CartState) :
    getCartItemCount s = (s.items.map (fun i => i.quantity)).sum := by
  unfold getCartItemCount
  rw [foldl_count_eq_sum s.items 0, zero_add]

/-- `getCartTotal` is the sum of price×quantity of the current items. -/
theorem getCartTotal_eq_sum (s : CartState) :
    getCartTotal s = (s.items.map (fun i => i.price * i.quantity)).sum := by
  unfold getCartTotal
  rw [foldl_total_eq_sum s.items 0, zero_add]

/-- The `ADD_ITEM` branch of the reducer: merge into the existing line with
the payload's id, or append the payload at the end. -/
theorem addItem_items (s : CartState) (p : CartItem) :
    (cartReducer s (.addItem p)).items =
      if s.items.any (fun item => item.id == p.id) then
        s.items.map (fun item =>
          if item.id == p.id then { item with quantity := item.quantity + p.quantity }
          else item)
      else s.items ++ [p] := by
  simp only [cartReducer]
  split
  · rename_i i heq
    have hmem : i ∈ s.items := List.mem_of_find?_eq_some heq
    have hpred := List.find?_some heq
    have hany : s.items.any (fun item => item.id == p.id) = true :=
      List.any_eq_true.mpr ⟨i, hmem, by simpa using hpred⟩
    simp [hany]
  · rename_i heq
    have hany : s.items.any (fun item => item.id == p.id) = false := by
      rw [List.any_eq_false]
      intro x hx
      simpa using List.find?_eq_none.mp heq x hx
    simp [hany]

/-- `ADD_ITEM` never touches the `error` field. -/
theorem addItem_error (s : CartState) (p : CartItem) :
    (cartReducer s (.addItem p)).error = s.error := by
  simp only [cartReducer]
  split <;> rfl

/-- The `UPDATE_ITEM` map leaves a list without the target id unchanged. -/
theorem map_update_noop (productId q : Int) :
    ∀ l : List CartItem, (∀ i ∈ l, i.id ≠ productId) →
      l.map (fun item =>
        if item.id == productId then { item with quantity := q } else item) = l := by
  intro l
  induction l with
  | nil => intro _; rfl
  | cons x xs ih =>
      intro h
      have hx : ¬((x.id == productId) = true) := by
        simp only [beq_iff_eq]
        exact h x (List.mem_cons_self x xs)
      simp only [List.map_cons, if_neg hx]
      rw [ih (fun i hi => h i (List.mem_cons_of_mem x hi))]

/-- Reading back the encoding of one item recovers the item. -/
theorem decodeItem_encodeItem (i : CartItem) : decodeItem (encodeItem i) = some i := rfl

/-- `charListLt` is irreflexive. -/
theorem charListLt_self : ∀ l : List Char, charListLt l l = false := by
  intro l
  induction l with
  | nil => rfl
  | cons a as ih => simp [charListLt, ih]

/-- JS `>` is false on two equal values. -/
theorem jsGt_self (v : JsValue) : jsGt v v = false := by
  cases v with
  | num n => simp [jsGt]
  | str s => simp [jsGt, jsStrLt, charListLt_self]

/-- JS `<` is false on two equal values. -/
theorem jsLt_self (v : JsValue) : jsLt v v = false := by
  cases v with
  | num n => simp [jsLt]
  | str s => simp [jsLt, jsStrLt, charListLt_self]

/-! The claim theorems. -/

/-- C1: after any sequence of cart mutations applied to the initial empty
cart, `getCartItemCount` equals the sum of the quantities and `getCartTotal`
equals the sum of price×quantity over the item list; both are computed from
the item list on demand, never stored. -/
theorem totals_derived_from_items (ops : List CartOp) :
    getCartItemCount (runOps ops)
        = ((runOps ops).items.map (fun i => i.quantity)).sum ∧
      getCartTotal (runOps ops)
        = ((runOps ops).items.map (fun i => i.price * i.quantity)).sum :=
  ⟨getCartItemCount_eq_sum (runOps ops), getCartTotal_eq_sum (runOps ops)⟩

/-- C2: an add operation either merges into the existing line with the same
id — incrementing its quantity by the added quantity, keeping its price and
every other line untouched, in place — or appends the new line at the end,
preserving the insertion order of all existing lines. -/
theorem addToCart_merges_or_appends (s : CartState) (p : CartItem) (q : Int) :
    (addToCart s p q).items =
      if s.items.any (fun item => item.id == p.id) then
        s.items.map (fun item =>
          if item.id == p.id then { item with quantity := item.quantity + q }
          else item)
      else s.items ++ [{ p with quantity := q }] := by
  show (cartReducer (cartReducer s (.setLoading true))
          (.addItem { p with quantity := q })).items = _
  rw [addItem_items]
  rfl

/-- C3 (failing-input evaluation): adding product 1 first with size S and
then with size M — two distinct derived cartIds — yields a single merged
line of quantity 2 keyed by the product id, with the first add's variant
and cartId, not two distinct lines. -/
theorem variant_adds_merge_into_one_line :
    ((handleAddToCart (handleAddToCart initialCartState demoProduct "S" "Red" 1)
        demoProduct "M" "Red" 1).items.map
      (fun i => (i.quantity, i.selectedSize, i.cartId)))
      = [(2, "S", "1-S-Red")] := by decide

/-- C4 (counterexample): `addToCart` with quantity 0 on the empty cart is
not rejected: it appends a line with quantity 0, records no error, and
changes the state. -/
theorem addToCart_zero_quantity_accepted :
    (addToCart initialCartState demoProduct 0).items
        = [{ demoProduct with quantity := 0 }] ∧
      (addToCart initialCartState demoProduct 0).error = none ∧
      addToCart initialCartState demoProduct 0 ≠ initialCartState := by decide

/-- C4 (amended): `addToCart` performs no quantity validation: a quantity
less than 1 is processed by the ordinary add path — merge into the matching
line or append a line carrying that quantity — and no error is recorded. -/
theorem addToCart_no_quantity_validation (s : CartState) (p : CartItem) (q : Int)
    (hq : q < 1) :
    (addToCart s p q).error = s.error ∧
      (addToCart s p q).items =
        (if s.items.any (fun item => item.id == p.id) then
          s.items.map (fun item =>
            if item.id == p.id then { item with quantity := item.quantity + q }
            else item)
        else s.items ++ [{ p with quantity := q }]) := by
  constructor
  · show (cartReducer (cartReducer s (.setLoading true))
            (.addItem { p with quantity := q })).error = s.error
    rw [addItem_error]
    rfl
  · show (cartReducer (cartReducer s (.setLoading true))
            (.addItem { p with quantity := q })).items = _
    rw [addItem_items]
    rfl

/-- Witness for the amended C4 at quantity 0 on the empty cart. -/
theorem addToCart_no_quantity_validation_witness :
    (0 : Int) < 1 ∧
      ((addToCart initialCartState demoProduct 0).error = initialCartState.error ∧
        (addToCart initialCartState demoProduct 0).items =
          (if initialCartState.items.any (fun item => item.id == demoProduct.id) then
            initialCartState.items.map (fun item =>
              if item.id == demoProduct.id then
                { item with quantity := item.quantity + 0 }
              else item)
          else initialCartState.items ++ [{ demoProduct with quantity := 0 }])) :=
  ⟨by decide, addToCart_no_quantity_validation initialCartState demoProduct 0 (by decide)⟩

/-- C5: `updateQuantity` with a non-positive quantity produces exactly the
state `removeFromCart` produces for the same id. -/
theorem updateQuantity_nonpos_is_remove (s : CartState) (productId q : Int)
    (hq : q ≤ 0) :
    updateQuantity s productId q = removeFromCart s productId := by
  unfold updateQuantity
  rw [if_pos hq]

/-- Witness for C5 at quantity 0 on a one-line cart. -/
theorem updateQuantity_nonpos_is_remove_witness :
    (0 : Int) ≤ 0 ∧ updateQuantity demoState 1 0 = removeFromCart demoState 1 :=
  ⟨by decide, updateQuantity_nonpos_is_remove demoState 1 0 (by decide)⟩

/-- C6 (counterexample): `updateQuantity` with positive quantity 5 targeting
the absent id 2 does not fail: the state is returned unchanged and the error
field stays `none` — no LineNotFound error reaches the caller. -/
theorem updateQuantity_absent_id_no_failure :
    updateQuantity demoState 2 5 = demoState ∧
      (updateQuantity demoState 2 5).error = none := by decide

/-- C6 (amended): `updateQuantity` with a positive quantity targeting an id
not present in the cart does not fail with LineNotFound; it returns the
state completely unchanged. -/
theorem updateQuantity_absent_id_silent (s : CartState) (productId q : Int)
    (hq : 0 < q) (habs : ∀ i ∈ s.items, i.id ≠ productId) :
    updateQuantity s productId q = s := by
  have hnot : ¬q ≤ 0 := not_le.mpr hq
  obtain ⟨items, loading, error⟩ := s
  simp only [updateQuantity, if_neg hnot, cartReducer]
  rw [map_update_noop productId q items habs]

/-- Witness for the amended C6 at id 2, quantity 5, on a one-line cart for
product 1. -/
theorem updateQuantity_absent_id_silent_witness :
    (0 : Int) < 5 ∧ (∀ i ∈ demoState.items, i.id ≠ 2) ∧
      updateQuantity demoState 2 5 = demoState :=
  ⟨by decide, by decide,
    updateQuantity_absent_id_silent demoState 2 5 (by decide) (by decide)⟩

/-- C7: saving any cart item list and loading it back reads off the same
item list: save followed by load is a round-trip. -/
theorem saveCart_getCart_roundtrip (items : List CartItem) :
    decodeCart (getCart (saveCart items)) = some items := by
  show decodeItems (items.map encodeItem) = some items
  induction items with
  | nil => rfl
  | cons i rest ih => simp [decodeItems, decodeItem_encodeItem, ih]

/-- C8: loading an absent payload and loading a payload whose parse throws
both yield the empty item list, and the two cases produce identical results;
`getCart` is total (it never throws). -/
theorem getCart_corrupt_is_empty :
    decodeCart (getCart .absent) = some [] ∧
      decodeCart (getCart .corrupt) = some [] ∧
      getCart .corrupt = getCart .absent :=
  ⟨rfl, rfl, rfl⟩

/-- C9 (counterexample): two products with equal sort-key values and ids 2
and 1: the comparator orders the id-2 record before the id-1 record (it
returns −1), so equal-key records are not ordered by ascending id. -/
theorem comparator_no_id_tiebreak_cex :
    sortKeyValue prodA .name = sortKeyValue prodB .name ∧
      ¬(compareProducts .name .asc prodA prodB < 0 ↔ prodA.id < prodB.id) := by decide

/-- C9 (amended): the sort comparator compares only the requested key and
never consults ids: on records with equal key values it returns −1 for both
argument orders and both directions, so ties are not broken by ascending id
and the relative order of equal-key records is not determined by the
comparator. -/
theorem comparator_ties_ignore_id (k : SortKey) (o : SortOrder) (a b : Product)
    (h : sortKeyValue a k = sortKeyValue b k) :
    compareProducts k o a b = -1 ∧ compareProducts k o b a = -1 := by
  cases o with
  | asc =>
      constructor
      · simp only [compareProducts]
        rw [h]
        simp [jsGt_self]
      · simp only [compareProducts]
        rw [h]
        simp [jsGt_self]
  | desc =>
      constructor
      · simp only [compareProducts]
        rw [h]
        simp [jsLt_self]
      · simp only [compareProducts]
        rw [h]
        simp [jsLt_self]

/-- Witness for the amended C9 on two equal-named products with ids 2 and 1. -/
theorem comparator_ties_ignore_id_witness :
    sortKeyValue prodA .name = sortKeyValue prodB .name ∧
      (compareProducts .name .asc prodA prodB = -1 ∧
        compareProducts .name .asc prodB prodA = -1) :=
  ⟨by decide, comparator_ties_ignore_id .name .asc prodA prodB (by decide)⟩

/-- C10: `updateQuantity` with a positive quantity targeting a productId not
in the cart leaves the item list unchanged and reports no error: a silent
no-op, not a failure. -/
theorem updateQuantity_absent_id_noop (s : CartState) (productId q : Int)
    (hq : 0 < q) (habs : ∀ i ∈ s.items, i.id ≠ productId) :
    (updateQuantity s productId q).items = s.items ∧
      (updateQuantity s productId q).error = s.error := by
  have hnot : ¬q ≤ 0 := not_le.mpr hq
  constructor
  · simp only [updateQuantity, if_neg hnot, cartReducer]
    exact map_update_noop productId q s.items habs
  · simp only [updateQuantity, if_neg hnot, cartReducer]

/-- Witness for C10 at id 3, quantity 2, on a one-line cart for product 1. -/
theorem updateQuantity_absent_id_noop_witness :
    (0 : Int) < 2 ∧ (∀ i ∈ demoState.items, i.id ≠ 3) ∧
      ((updateQuantity demoState 3 2).items = demoState.items ∧
        (updateQuantity demoState 3 2).error = demoState.error) :=
  ⟨by decide, by decide,
    updateQuantity_absent_id_noop demoState 3 2 (by decide) (by decide)⟩

end ECommerce
